import Mathlib

/-!
Verification development for the ridewithgps-mcp adapter.

The TypeScript source consists of an HTTP API client (`api.ts`: class
`RideWithGPSApi` with `makeRequest` and eight endpoint methods, plus the
`RideWithGPSApiError` class) and an MCP server (`index.ts`: eight registered
tools, each delegating to one client method and rendering the decoded JSON
through a dedicated formatter).

Embedding conventions:
- JSON numbers are modelled as exact rationals (the source values in play are
  metres, seconds, ids and page numbers, all far below any double-precision
  rounding boundary).
- Loosely typed JSON objects (the source accesses `any`-typed responses with
  optional fields) are modelled as structures whose every field is an
  `Option`; `none` models an absent field (JavaScript `undefined`).
- JavaScript truthiness is modelled by the `truthy*` helpers: `undefined`,
  `0`, `""` and `false` are falsy, everything else is truthy.
- Code that can throw (property access on `null`, `.toUpperCase()` on
  `undefined`) is modelled with `Except JsException`; total formatters keep
  a plain `String` result type.
- The platform locale date rendering (`new Date(s).toLocaleString()`) is
  abstracted by a `Platform` record: a parse test plus a renderer for
  parseable strings.  Per ECMAScript semantics neither the `Date`
  constructor nor `toLocaleString` ever throws on a string argument; an
  unparseable string produces an invalid date whose `toLocaleString` is the
  fixed string "Invalid Date".
-/

/-- Platform model for `new Date(s).toLocaleString()`: which strings parse as
dates, and the locale rendering of those that do. -/
structure Platform where
  dateParses : String → Bool
  dateRender : String → String

/-- JavaScript truthiness of an optional string: `undefined` and `""` are
falsy. -/
def truthyS : Option String → Bool
  | none => false
  | some s => s != ""

/-- JavaScript truthiness of an optional number: `undefined` and `0` are
falsy. -/
def truthyN : Option ℚ → Bool
  | none => false
  | some q => q != 0

/-- JavaScript truthiness of an optional boolean. -/
def truthyB : Option Bool → Bool
  | none => false
  | some b => b

/-- JavaScript truthiness of `xs?.length` for an optional array. -/
def truthyLen : Option (List α) → Bool
  | none => false
  | some l => l.length != 0

/-- Source `x || d` for an optional string `x` (JS `||` returns the first truthy
operand). -/
def orS (x : Option String) (d : String) : String :=
  if truthyS x then x.getD "" else d

/-- Source `x || d` for an optional number `x`. -/
def orN (x : Option ℚ) (d : ℚ) : ℚ :=
  if truthyN x then x.getD 0 else d

/-- Decimal digit character for `d % 10`. -/
def digitChar10 (d : Nat) : Char := Char.ofNat (48 + d % 10)

/-- Accumulate the decimal digits of `n` (most significant first) in front of
`acc`; `fuel` is structural so the definition computes inside the kernel, and
any `fuel ≥ n` yields all digits. -/
def natDigitsAux : Nat → Nat → List Char → List Char
  | 0, _, acc => acc
  | fuel + 1, n, acc =>
    if n = 0 then acc else natDigitsAux fuel (n / 10) (digitChar10 (n % 10) :: acc)

/-- Decimal rendering of a natural number, as JavaScript renders integral
doubles. -/
def natToStr (n : Nat) : String :=
  if n = 0 then "0" else String.mk (natDigitsAux (n + 1) n [])

/-- Truncation toward zero, as used by the JavaScript `%` operator. -/
def ratTrunc (q : ℚ) : Int :=
  if q < 0 then -(-q).floor else q.floor

/-- JavaScript remainder `a % b` (sign follows the dividend; truncating
division). -/
def jsRem (a b : ℚ) : ℚ := a - b * (ratTrunc (a / b) : ℚ)

/-- Model of `Number.prototype.toFixed(f)`: strip the sign, round the magnitude to `f`
fractional digits picking the larger integer on ties, pad to at least `f + 1`
digits and reinsert the point. -/
def toFixed (f : Nat) (q : ℚ) : String :=
  let sign := if q < 0 then "-" else ""
  let x := if q < 0 then -q else q
  let n : Nat := ((x * (10 : ℚ) ^ f + 1 / 2).floor).toNat
  let m := natToStr n
  let m := if m.length ≤ f then String.mk (List.replicate (f + 1 - m.length) '0') ++ m else m
  if f = 0 then sign ++ m
  else sign ++ m.take (m.length - f) ++ "." ++ String.drop m (m.length - f)

/-- Fractional decimal digits of `r` (intended domain `0 ≤ r < 1`), stopping
at the first exact zero remainder; `fuel` bounds the expansion.  The `% 10`
in `digitChar10` is the identity on the reachable domain. -/
def fracDigits : Nat → ℚ → List Char
  | 0, _ => []
  | fuel + 1, r =>
    if r = 0 then []
    else
      let r10 := r * 10
      let d : Nat := (r10.floor).toNat
      digitChar10 d :: fracDigits fuel (r10 - (d : ℚ))

/-- JavaScript `Number.prototype.toString()` for the values occurring here:
sign, decimal integer part, and (for non-integral values) a point followed by
the fractional digits without trailing zeros.  The expansion is exact for all
fractions terminating within 20 decimal digits, which covers every value a
page or id argument can take in this adapter. -/
def jsNumToString (q : ℚ) : String :=
  let sign := if q < 0 then "-" else ""
  let x := if q < 0 then -q else q
  let ip : Nat := (x.floor).toNat
  let fr : ℚ := x - (ip : ℚ)
  if fr = 0 then sign ++ natToStr ip
  else sign ++ natToStr ip ++ "." ++ String.mk (fracDigits 20 fr)

/-- Template rendering of an optional integer field (JS renders `undefined`
as the string "undefined"). -/
def jsShowOptInt : Option Int → String
  | none => "undefined"
  | some i => toString i

/-- Template rendering of an optional numeric field. -/
def jsShowOptNum : Option ℚ → String
  | none => "undefined"
  | some q => jsNumToString q

/-- Template rendering of an optional string field. -/
def jsShowOptStr : Option String → String
  | none => "undefined"
  | some s => s

/-- Rendering of `x?.toFixed(digits)` interpolated into a template: absent renders as
"undefined". -/
def jsOptFixed (digits : Nat) : Option ℚ → String
  | none => "undefined"
  | some q => toFixed digits q

/-- Rendering of `x?.toFixed(digits) || d`: `undefined || d` is `d`; a `toFixed` result is
a non-empty string, hence truthy, so the present case never falls back. -/
def optFixedOr (digits : Nat) (x : Option ℚ) (d : String) : String :=
  match x with
  | none => d
  | some q => toFixed digits q

/-- Source `formatDistance`: falsy metres render "Unknown", otherwise
kilometres with two decimals. -/
def formatDistance (meters : Option ℚ) : String :=
  if truthyN meters then toFixed 2 (meters.getD 0 / 1000) ++ " km" else "Unknown"

/-- Source `formatElevation`: falsy metres render "Unknown", otherwise whole
metres. -/
def formatElevation (meters : Option ℚ) : String :=
  if truthyN meters then toFixed 0 (meters.getD 0) ++ " m" else "Unknown"

/-- Source `formatDuration`: falsy seconds render "Unknown", otherwise
"Hh Mm" by floor division. -/
def formatDuration (seconds : Option ℚ) : String :=
  if truthyN seconds then
    let s := seconds.getD 0
    let hours : Int := (s / 3600).floor
    let minutes : Int := (jsRem s 3600 / 60).floor
    toString hours ++ "h " ++ toString minutes ++ "m"
  else "Unknown"

/-- Model of `new Date(s).toLocaleString()`.  The `Date` constructor never
throws on a string; an unparseable string yields an invalid date, and
`toLocaleString` on an invalid date returns the fixed string "Invalid Date"
(it does not throw either). -/
def jsToLocaleString (pf : Platform) (s : String) : String :=
  if pf.dateParses s then pf.dateRender s else "Invalid Date"

/-- Source `formatDate`.  The source wraps the call in `try/catch` returning
the raw string from the `catch`; since neither operation can throw, the
`catch` branch is unreachable and is therefore absent from the embedding. -/
def formatDate (pf : Platform) (dateString : Option String) : String :=
  if truthyS dateString then jsToLocaleString pf (dateString.getD "") else "Unknown"

/-! ## Data model

Structures mirror the loosely typed JSON shapes the formatters access; every
field is optional, with `none` modelling an absent field. -/

/-- Pagination metadata inside `response.meta.pagination`. -/
structure Pagination where
  record_count : Option Int := none
  next_page_url : Option String := none
deriving DecidableEq, Repr

/-- Shape of `response.meta` of a list response. -/
structure ListMeta where
  pagination : Option Pagination := none
deriving DecidableEq, Repr

/-- A course point of a route detail response (source interface
`CoursePoint`). -/
structure CoursePoint where
  x : Option ℚ := none
  y : Option ℚ := none
  d : Option ℚ := none
  i : Option ℚ := none
  t : Option String := none
  n : Option String := none
  _e : Option Bool := none
deriving DecidableEq, Repr

/-- A point of interest of a route detail response (source interface
`PointOfInterest`). -/
structure Poi where
  id : Option Int := none
  type : Option String := none
  type_name : Option String := none
  name : Option String := none
  description : Option String := none
  url : Option String := none
  lat : Option ℚ := none
  lng : Option ℚ := none
deriving DecidableEq, Repr

/-- A route object, covering the list view and the detail view (the detail
view adds the three nested collections). -/
structure Route where
  id : Option Int := none
  url : Option String := none
  name : Option String := none
  visibility : Option String := none
  description : Option String := none
  locality : Option String := none
  administrative_area : Option String := none
  country_code : Option String := none
  distance : Option ℚ := none
  elevation_gain : Option ℚ := none
  elevation_loss : Option ℚ := none
  first_lat : Option ℚ := none
  first_lng : Option ℚ := none
  last_lat : Option ℚ := none
  last_lng : Option ℚ := none
  sw_lat : Option ℚ := none
  sw_lng : Option ℚ := none
  ne_lat : Option ℚ := none
  ne_lng : Option ℚ := none
  track_type : Option String := none
  terrain : Option String := none
  difficulty : Option String := none
  surface : Option String := none
  unpaved_pct : Option ℚ := none
  created_at : Option String := none
  updated_at : Option String := none
  track_points : Option (List Unit) := none
  course_points : Option (List CoursePoint) := none
  points_of_interest : Option (List Poi) := none
deriving DecidableEq, Repr

/-- A trip object, covering the list view and the detail view. -/
structure Trip where
  id : Option Int := none
  name : Option String := none
  visibility : Option String := none
  description : Option String := none
  locality : Option String := none
  administrative_area : Option String := none
  country_code : Option String := none
  distance : Option ℚ := none
  elevation_gain : Option ℚ := none
  elevation_loss : Option ℚ := none
  first_lat : Option ℚ := none
  first_lng : Option ℚ := none
  last_lat : Option ℚ := none
  last_lng : Option ℚ := none
  sw_lat : Option ℚ := none
  sw_lng : Option ℚ := none
  ne_lat : Option ℚ := none
  ne_lng : Option ℚ := none
  track_type : Option String := none
  terrain : Option String := none
  difficulty : Option String := none
  departed_at : Option String := none
  time_zone : Option String := none
  activity_type : Option String := none
  fit_sport : Option ℚ := none
  fit_sub_sport : Option ℚ := none
  is_stationary : Option Bool := none
  duration : Option ℚ := none
  moving_time : Option ℚ := none
  avg_speed : Option ℚ := none
  max_speed : Option ℚ := none
  avg_cad : Option ℚ := none
  min_cad : Option ℚ := none
  max_cad : Option ℚ := none
  avg_hr : Option ℚ := none
  min_hr : Option ℚ := none
  max_hr : Option ℚ := none
  avg_watts : Option ℚ := none
  min_watts : Option ℚ := none
  max_watts : Option ℚ := none
  calories : Option ℚ := none
  created_at : Option String := none
  updated_at : Option String := none
  track_points : Option (List Unit) := none
deriving DecidableEq, Repr

/-- An event object (list view and detail view; the detail view may carry
associated routes). -/
structure Event where
  id : Option Int := none
  name : Option String := none
  description : Option String := none
  starts_at : Option String := none
  ends_at : Option String := none
  created_at : Option String := none
  updated_at : Option String := none
  routes : Option (List Route) := none
deriving DecidableEq, Repr

/-- The current-user object. -/
structure User where
  id : Option Int := none
  name : Option String := none
  email : Option String := none
  created_at : Option String := none
  updated_at : Option String := none
deriving DecidableEq, Repr

/-- The optional collection attached to a sync delta item. -/
structure SyncCollection where
  name : Option String := none
deriving DecidableEq, Repr

/-- One sync delta item. -/
structure SyncItem where
  action : Option String := none
  item_type : Option String := none
  item_id : Option Int := none
  item_user_id : Option Int := none
  datetime : Option String := none
  collection : Option SyncCollection := none
deriving DecidableEq, Repr

/-- Sync response metadata. -/
structure SyncMeta where
  next_sync_url : Option String := none
  rwgps_datetime : Option String := none
deriving DecidableEq, Repr

/-- Body of a routes list response. -/
structure RoutesResponse where
  routes : Option (List Route) := none
  meta : Option ListMeta := none
deriving DecidableEq, Repr

/-- Body of a trips list response. -/
structure TripsResponse where
  trips : Option (List Trip) := none
  meta : Option ListMeta := none
deriving DecidableEq, Repr

/-- Body of an events list response. -/
structure EventsResponse where
  events : Option (List Event) := none
  meta : Option ListMeta := none
deriving DecidableEq, Repr

/-- Body of a route detail response. -/
structure RouteDetailResponse where
  route : Option Route := none
deriving DecidableEq, Repr

/-- Body of a trip detail response. -/
structure TripDetailResponse where
  trip : Option Trip := none
deriving DecidableEq, Repr

/-- Body of an event detail response. -/
structure EventDetailResponse where
  event : Option Event := none
deriving DecidableEq, Repr

/-- Body of the current-user response. -/
structure UserResponse where
  user : Option User := none
deriving DecidableEq, Repr

/-- Body of a sync response. -/
structure SyncResponse where
  items : Option (List SyncItem) := none
  meta : Option SyncMeta := none
deriving DecidableEq, Repr

/-! ## Errors and the HTTP client -/

/-- Values thrown inside the adapter: the `RideWithGPSApiError` class from
`api.ts` (message, numeric HTTP status, raw response body), or a generic
`Error` subclass identified by its `name` (`TypeError` from a failed `fetch`
or an undefined property access, `SyntaxError` from `response.json()`). -/
inductive JsException where
  | rwgpsApiError (message : String) (status : Nat) (responseBody : String)
  | error (name : String) (message : String)
deriving DecidableEq, Repr

/-- Source `formatError`: a `RideWithGPSApiError` renders with its status,
any other `Error` renders its message. -/
def formatError : JsException → String
  | .rwgpsApiError message status _ =>
    "RideWithGPS API Error (" ++ toString status ++ "): " ++ message
  | .error _ message => "Error: " ++ message

/-- What one `fetch` of an endpoint produces: either the promise rejects
(transport failure), or a response arrives with a status, a status text, a
body text, and the outcome of parsing the body as JSON into the shape `α`
expected by that endpoint. -/
inductive FetchOutcome (α : Type) where
  | reject (message : String)
  | response (status : Nat) (statusText : String) (bodyText : String)
      (jsonResult : Except String α)

/-- Source `makeRequest`: a rejected fetch propagates as a `TypeError`; a
non-ok response (`response.ok` is `status` in 200..299) throws a
`RideWithGPSApiError` built from the status, the status text and the raw
body text; otherwise the JSON-decoded body is returned (a body that fails to
parse throws a `SyntaxError`). -/
def makeRequest : FetchOutcome α → Except JsException α
  | .reject m => .error (.error "TypeError" m)
  | .response status statusText bodyText jsonResult =>
    if 200 ≤ status ∧ status ≤ 299 then
      match jsonResult with
      | .ok v => .ok v
      | .error m => .error (.error "SyntaxError" m)
    else
      .error (.rwgpsApiError
        ("API request failed: " ++ toString status ++ " " ++ statusText) status bodyText)

/-! ## URL construction (`URLSearchParams` and the endpoint builders) -/

/-- Hex digit (uppercase), as used by percent-encoding. -/
def hexDigit (n : Nat) : Char :=
  if n % 16 < 10 then Char.ofNat (48 + n % 16) else Char.ofNat (55 + n % 16)

/-- Percent-encode one byte. -/
def percentByte (b : Nat) : String :=
  String.mk ['%', hexDigit (b / 16), hexDigit b]

/-- The `application/x-www-form-urlencoded` serialization of one character, as
`URLSearchParams.toString` does: ASCII alphanumerics (`Char.isAlphanum` is
ASCII-only) and `*-._` pass through, space becomes `+`, everything else is
percent-encoded byte-wise over its UTF-8 encoding. -/
def formEncodeChar (c : Char) : String :=
  if c.isAlphanum then String.singleton c
  else if c = '*' ∨ c = '-' ∨ c = '.' ∨ c = '_' then String.singleton c
  else if c = ' ' then "+"
  else String.join (((String.singleton c).toUTF8.toList).map fun b => percentByte b.toNat)

/-- Form-urlencoding of a string, character by character. -/
def formEncodeStr (s : String) : String :=
  String.join (s.data.map formEncodeChar)

/-- Model of `URLSearchParams.toString()`: `k=v` pairs joined by `&`, both sides
form-urlencoded. -/
def searchParamsToString (ps : List (String × String)) : String :=
  String.intercalate "&" (ps.map fun p => formEncodeStr p.1 ++ "=" ++ formEncodeStr p.2)

/-- Query-parameter list built by the three list-endpoint methods: `page` is
appended only when truthy. -/
def pageParams (page : Option ℚ) : List (String × String) :=
  if truthyN page then [("page", jsNumToString (page.getD 0))] else []

/-- Append `?query` to a base path only when the query string is non-empty,
as the three list-endpoint methods do. -/
def withQuery (base : String) (queryString : String) : String :=
  base ++ (if queryString ≠ "" then "?" ++ queryString else "")

/-- Endpoint of `getRoutes(page?)`. -/
def routesEndpoint (page : Option ℚ) : String :=
  withQuery "/api/v1/routes.json" (searchParamsToString (pageParams page))

/-- Endpoint of `getTrips(page?)`. -/
def tripsEndpoint (page : Option ℚ) : String :=
  withQuery "/api/v1/trips.json" (searchParamsToString (pageParams page))

/-- Endpoint of `getEvents(page?)`. -/
def eventsEndpoint (page : Option ℚ) : String :=
  withQuery "/api/v1/events.json" (searchParamsToString (pageParams page))

/-- Endpoint of `getRoute(id)`. -/
def routeEndpoint (id : ℚ) : String :=
  "/api/v1/routes/" ++ jsNumToString id ++ ".json"

/-- Endpoint of `getTrip(id)`. -/
def tripEndpoint (id : ℚ) : String :=
  "/api/v1/trips/" ++ jsNumToString id ++ ".json"

/-- Endpoint of `getEvent(id)`. -/
def eventEndpoint (id : ℚ) : String :=
  "/api/v1/events/" ++ jsNumToString id ++ ".json"

/-- Endpoint of `getCurrentUser()`. -/
def currentUserEndpoint : String := "/api/v1/users/current.json"

/-- Endpoint of `getSync(since, assets?)`: `since` is always appended,
`assets` only when truthy, and the `?` is unconditional. -/
def syncEndpoint (since : String) (assets : Option String) : String :=
  let params := [("since", since)] ++ (if truthyS assets then [("assets", assets.getD "")] else [])
  "/api/v1/sync.json?" ++ searchParamsToString params

/-! ## Resource Client operations

Each operation builds its endpoint and performs exactly one request; the
network is abstracted as a function from endpoint to fetch outcome, with the
decoded-JSON type fixed per endpoint. -/

def apiGetRoutes (net : String → FetchOutcome α) (page : Option ℚ) : Except JsException α :=
  makeRequest (net (routesEndpoint page))

def apiGetRoute (net : String → FetchOutcome α) (id : ℚ) : Except JsException α :=
  makeRequest (net (routeEndpoint id))

def apiGetTrips (net : String → FetchOutcome α) (page : Option ℚ) : Except JsException α :=
  makeRequest (net (tripsEndpoint page))

def apiGetTrip (net : String → FetchOutcome α) (id : ℚ) : Except JsException α :=
  makeRequest (net (tripEndpoint id))

def apiGetEvents (net : String → FetchOutcome α) (page : Option ℚ) : Except JsException α :=
  makeRequest (net (eventsEndpoint page))

def apiGetEvent (net : String → FetchOutcome α) (id : ℚ) : Except JsException α :=
  makeRequest (net (eventEndpoint id))

def apiGetCurrentUser (net : String → FetchOutcome α) : Except JsException α :=
  makeRequest (net currentUserEndpoint)

def apiGetSync (net : String → FetchOutcome α) (since : String) (assets : Option String) :
    Except JsException α :=
  makeRequest (net (syncEndpoint since assets))

/-! ## Formatters (`index.ts`)

List formatters are total (`String`); the detail, user and sync formatters
can throw (`response.route` on a `null` payload; `.toUpperCase()` on an
absent `action`), so they return `Except JsException String`.  String
lengths and truncation are modelled on code points (the source uses UTF-16
units; no claim depends on astral characters). -/

/-- Body of the `forEach` loop of `formatRoutesList` for entry `index`. -/
def routesEntryStr (pf : Platform) (index : Nat) (route : Route) : String :=
  let k := index + 1
  let nm := orS route.name "Unnamed Route"
  let idS := jsShowOptInt route.id
  let line1 := toString k ++ ". **" ++ nm ++ "** (ID: " ++ idS ++ ")\n"
  let elev :=
    if truthyN route.elevation_gain then
      " | Elevation: +" ++ formatElevation route.elevation_gain ++
        (if truthyN route.elevation_loss then "/-" ++ formatElevation route.elevation_loss else "")
    else ""
  let line2 := "   Distance: " ++ formatDistance route.distance ++ elev ++ "\n"
  let cc := if truthyS route.country_code then ", " ++ route.country_code.getD "" else ""
  let line3 :=
    "   Location: " ++ orS route.locality "Unknown" ++ ", " ++
      orS route.administrative_area "Unknown" ++ cc ++ "\n"
  let characteristics :=
    (if truthyS route.track_type then ["Type: " ++ route.track_type.getD ""] else []) ++
    (if truthyS route.terrain then ["Terrain: " ++ route.terrain.getD ""] else []) ++
    (if truthyS route.difficulty then ["Difficulty: " ++ route.difficulty.getD ""] else []) ++
    (if truthyS route.surface then ["Surface: " ++ route.surface.getD ""] else []) ++
    (if truthyN route.unpaved_pct then [jsShowOptNum route.unpaved_pct ++ "% unpaved"] else [])
  let line4 :=
    if characteristics.length ≠ 0 then
      "   " ++ String.intercalate " | " characteristics ++ "\n"
    else ""
  let vis := if truthyS route.visibility then "   Visibility: " ++ route.visibility.getD "" else ""
  let desc :=
    if truthyS route.description then
      let d := route.description.getD ""
      let td := if d.length > 100 then d.take 97 ++ "..." else d
      " | Description: " ++ td
    else ""
  let line5 :=
    vis ++ desc ++ (if truthyS route.visibility ∨ truthyS route.description then "\n" else "")
  let cS := formatDate pf route.created_at
  let uS := formatDate pf route.updated_at
  let line6 := "   Created: " ++ cS ++ " | Updated: " ++ uS ++ "\n\n"
  line1 ++ line2 ++ line3 ++ line4 ++ line5 ++ line6

/-- Source `formatRoutesList`: empty or absent list short-circuits to
"No routes found."; otherwise a header (with page info when pagination
metadata is present), one entry per route, and a next-page hint when
`next_page_url` is truthy. -/
def formatRoutesList (pf : Platform) : Option RoutesResponse → String
  | none => "No routes found."
  | some r =>
    match r.routes with
    | none => "No routes found."
    | some routes =>
      if routes.length = 0 then "No routes found."
      else
        let n := routes.length
        let meta := r.meta.bind ListMeta.pagination
        let pageInfo :=
          match meta with
          | some pg =>
            let rc := jsShowOptInt pg.record_count
            " (Page showing " ++ toString n ++ " of " ++ rc ++ " total)"
          | none => ""
        let header := "Found " ++ toString n ++ " route(s)" ++ pageInfo ++ ":\n\n"
        let body := routes.enum.foldl (fun acc p => acc ++ routesEntryStr pf p.1 p.2) ""
        let footer :=
          if truthyS (meta.bind Pagination.next_page_url) then
            "Use the next page parameter to get more results."
          else ""
        header ++ body ++ footer

/-- Body of the `forEach` loop of `formatTripsList` for entry `index`. -/
def tripsEntryStr (pf : Platform) (index : Nat) (trip : Trip) : String :=
  let k := index + 1
  let nm := orS trip.name "Unnamed Trip"
  let idS := jsShowOptInt trip.id
  let line1 := toString k ++ ". **" ++ nm ++ "** (ID: " ++ idS ++ ")\n"
  let line2 :=
    "   Distance: " ++ formatDistance trip.distance ++
      (if truthyN trip.duration then
        " | Moving Time: " ++ formatDuration (some (orN trip.moving_time 0))
      else "") ++ "\n"
  let activity :=
    if truthyS trip.activity_type then
      "   Activity: " ++ trip.activity_type.getD "" ++
        (if truthyN trip.avg_speed then
          " | Avg Speed: " ++ toFixed 1 (trip.avg_speed.getD 0) ++ " km/h"
        else "") ++ "\n"
    else ""
  let characteristics :=
    (if truthyS trip.track_type then ["Type: " ++ trip.track_type.getD ""] else []) ++
    (if truthyS trip.terrain then ["Terrain: " ++ trip.terrain.getD ""] else []) ++
    (if truthyS trip.difficulty then ["Difficulty: " ++ trip.difficulty.getD ""] else [])
  let line4 :=
    if characteristics.length ≠ 0 then
      "   " ++ String.intercalate " | " characteristics ++ "\n"
    else ""
  let times :=
    "   Departed: " ++ formatDate pf trip.departed_at ++
      (if truthyS trip.created_at then " | Created: " ++ formatDate pf trip.created_at else "") ++
      (if truthyS trip.updated_at then " | Updated: " ++ formatDate pf trip.updated_at else "") ++
      "\n\n"
  line1 ++ line2 ++ activity ++ line4 ++ times

/-- Source `formatTripsList`. -/
def formatTripsList (pf : Platform) : Option TripsResponse → String
  | none => "No trips found."
  | some r =>
    match r.trips with
    | none => "No trips found."
    | some trips =>
      if trips.length = 0 then "No trips found."
      else
        let n := trips.length
        let meta := r.meta.bind ListMeta.pagination
        let pageInfo :=
          match meta with
          | some pg =>
            let rc := jsShowOptInt pg.record_count
            " (Page showing " ++ toString n ++ " of " ++ rc ++ " total)"
          | none => ""
        let header := "Found " ++ toString n ++ " trip(s)" ++ pageInfo ++ ":\n\n"
        let body := trips.enum.foldl (fun acc p => acc ++ tripsEntryStr pf p.1 p.2) ""
        let footer :=
          if truthyS (meta.bind Pagination.next_page_url) then
            "Use the next page parameter to get more results."
          else ""
        header ++ body ++ footer

/-- Body of the `forEach` loop of `formatEventsList` for entry `index`. -/
def eventsEntryStr (pf : Platform) (index : Nat) (event : Event) : String :=
  let k := index + 1
  let nm := orS event.name "Unnamed Event"
  let idS := jsShowOptInt event.id
  toString k ++ ". **" ++ nm ++ "** (ID: " ++ idS ++ ")\n" ++
    "   Starts: " ++ formatDate pf event.starts_at ++ "\n" ++
    (if truthyS event.ends_at then "   Ends: " ++ formatDate pf event.ends_at ++ "\n" else "") ++
    "   Created: " ++ formatDate pf event.created_at ++ "\n\n"

/-- Source `formatEventsList`. -/
def formatEventsList (pf : Platform) : Option EventsResponse → String
  | none => "No events found."
  | some r =>
    match r.events with
    | none => "No events found."
    | some events =>
      if events.length = 0 then "No events found."
      else
        let n := events.length
        let meta := r.meta.bind ListMeta.pagination
        let pageInfo :=
          match meta with
          | some pg =>
            let rc := jsShowOptInt pg.record_count
            " (Page showing " ++ toString n ++ " of " ++ rc ++ " total)"
          | none => ""
        let header := "Found " ++ toString n ++ " event(s)" ++ pageInfo ++ ":\n\n"
        let body := events.enum.foldl (fun acc p => acc ++ eventsEntryStr pf p.1 p.2) ""
        let footer :=
          if truthyS (meta.bind Pagination.next_page_url) then
            "Use the next page parameter to get more results."
          else ""
        header ++ body ++ footer

/-- Body of the course-point `forEach` of `formatRouteDetails`. -/
def coursePointEntryStr (index : Nat) (point : CoursePoint) : String :=
  let k := index + 1
  let labelS := orS point.t "Unknown"
  let dS := formatDistance point.d
  toString k ++ ". " ++ labelS ++ " at " ++ dS ++ "\n" ++
    (if truthyS point.n then "   Direction: " ++ point.n.getD "" ++ "\n" else "") ++
    "   Location: " ++ jsOptFixed 6 point.y ++ ", " ++ jsOptFixed 6 point.x ++ "\n" ++
    (if truthyB point._e then "   (User edited)\n" else "")

/-- Body of the point-of-interest `forEach` of `formatRouteDetails`. -/
def poiEntryStr (index : Nat) (poi : Poi) : String :=
  let k := index + 1
  let nm := orS poi.name "Unnamed POI"
  let ty := orS poi.type_name (orS poi.type "Unknown type")
  toString k ++ ". **" ++ nm ++ "** (" ++ ty ++ ")\n" ++
    (if truthyS poi.description then "   Description: " ++ poi.description.getD "" ++ "\n" else "") ++
    "   Location: " ++ jsOptFixed 6 poi.lat ++ ", " ++ jsOptFixed 6 poi.lng ++ "\n" ++
    (if truthyS poi.url then "   URL: " ++ poi.url.getD "" ++ "\n" else "")

/-- Rendering of a present route by `formatRouteDetails`. -/
def formatRouteDetailsBody (pf : Platform) (route : Route) : String :=
  let nm := orS route.name "Unnamed Route"
  let idS := jsShowOptInt route.id
  let descS := orS route.description "No description"
  let head :=
    "**" ++ nm ++ "**\nID: " ++ idS ++ "\nDescription: " ++ descS ++ "\n" ++
      (if truthyS route.visibility then "Visibility: " ++ route.visibility.getD "" ++ "\n" else "") ++
      "\n"
  let details :=
    "**Route Details:**\n" ++
      "Distance: " ++ formatDistance route.distance ++ "\n" ++
      (if truthyN route.elevation_gain then
        "Elevation Gain: " ++ formatElevation route.elevation_gain ++ "\n" else "") ++
      (if truthyN route.elevation_loss then
        "Elevation Loss: " ++ formatElevation route.elevation_loss ++ "\n" else "") ++
      "Track Type: " ++ orS route.track_type "Unknown" ++ "\n" ++
      "Terrain: " ++ orS route.terrain "Unknown" ++ "\n" ++
      "Difficulty: " ++ orS route.difficulty "Unknown" ++ "\n" ++
      "Surface: " ++ orS route.surface "Unknown" ++ "\n" ++
      (if truthyN route.unpaved_pct then
        "Unpaved Percentage: " ++ jsShowOptNum route.unpaved_pct ++ "%\n" else "")
  let coords :=
    if truthyN route.first_lat && truthyN route.first_lng then
      "\n**Coordinates:**\n" ++
        "Start: " ++ toFixed 6 (route.first_lat.getD 0) ++ ", " ++
          toFixed 6 (route.first_lng.getD 0) ++ "\n" ++
        "End: " ++ optFixedOr 6 route.last_lat "Unknown" ++ ", " ++
          optFixedOr 6 route.last_lng "Unknown" ++ "\n" ++
        (if truthyN route.sw_lat && truthyN route.sw_lng &&
            truthyN route.ne_lat && truthyN route.ne_lng then
          "Bounds: SW(" ++ toFixed 6 (route.sw_lat.getD 0) ++ ", " ++
            toFixed 6 (route.sw_lng.getD 0) ++ ") to NE(" ++
            toFixed 6 (route.ne_lat.getD 0) ++ ", " ++
            toFixed 6 (route.ne_lng.getD 0) ++ ")\n"
        else "")
    else ""
  let loc :=
    "\n**Location:**\n" ++ orS route.locality "Unknown" ++ ", " ++
      orS route.administrative_area "Unknown" ++ ", " ++ orS route.country_code "Unknown" ++ "\n"
  let times :=
    "\n**Timestamps:**\n" ++ "Created: " ++ formatDate pf route.created_at ++ "\n" ++
      "Updated: " ++ formatDate pf route.updated_at ++ "\n"
  let trackData :=
    if truthyLen route.track_points then
      let tl := (route.track_points.getD []).length
      "\n**Track Data:**\n" ++ "Track points: " ++ toString tl ++ "\n"
    else ""
  let coursePts :=
    if truthyLen route.course_points then
      let cps := route.course_points.getD []
      let cl := cps.length
      "\n**Course Points (" ++ toString cl ++ "):**\n" ++
        cps.enum.foldl (fun acc p => acc ++ coursePointEntryStr p.1 p.2) ""
    else ""
  let pois :=
    if truthyLen route.points_of_interest then
      let ps := route.points_of_interest.getD []
      let pl := ps.length
      "\n**Points of Interest (" ++ toString pl ++ "):**\n" ++
        ps.enum.foldl (fun acc p => acc ++ poiEntryStr p.1 p.2) ""
    else ""
  head ++ details ++ coords ++ loc ++ times ++ trackData ++ coursePts ++ pois

/-- Source `formatRouteDetails`: `response.route` throws on a `null`
payload; an absent route degrades to "Route not found.". -/
def formatRouteDetails (pf : Platform) : Option RouteDetailResponse → Except JsException String
  | none => .error (.error "TypeError" "Cannot read properties of null (reading 'route')")
  | some resp =>
    match resp.route with
    | none => .ok "Route not found."
    | some route => .ok (formatRouteDetailsBody pf route)

/-- Rendering of a present trip by `formatTripDetails`. -/
def formatTripDetailsBody (pf : Platform) (trip : Trip) : String :=
  let nm := orS trip.name "Unnamed Trip"
  let idS := jsShowOptInt trip.id
  let head :=
    "**" ++ nm ++ "**\nID: " ++ idS ++ "\n" ++
      (if truthyS trip.description then "Description: " ++ trip.description.getD "" ++ "\n" else "") ++
      (if truthyS trip.visibility then "Visibility: " ++ trip.visibility.getD "" ++ "\n" else "") ++
      "\n"
  let details :=
    "**Trip Details:**\n" ++
      "Activity Type: " ++ orS trip.activity_type "Unknown" ++ "\n" ++
      (if truthyS trip.time_zone then "Timezone: " ++ trip.time_zone.getD "" ++ "\n" else "") ++
      "Departed: " ++ formatDate pf trip.departed_at ++ "\n" ++
      "Distance: " ++ formatDistance trip.distance ++ "\n" ++
      "Duration: " ++ formatDuration (some (orN trip.duration 0)) ++ "\n" ++
      "Moving Time: " ++ formatDuration (some (orN trip.moving_time 0)) ++ "\n" ++
      (if truthyB trip.is_stationary then "Stationary Activity: Yes\n" else "")
  let characteristics :=
    (if truthyS trip.track_type then ["Type: " ++ trip.track_type.getD ""] else []) ++
    (if truthyS trip.terrain then ["Terrain: " ++ trip.terrain.getD ""] else []) ++
    (if truthyS trip.difficulty then ["Difficulty: " ++ trip.difficulty.getD ""] else [])
  let charLine :=
    if characteristics.length ≠ 0 then
      "Characteristics: " ++ String.intercalate " | " characteristics ++ "\n"
    else ""
  let speed :=
    "\n**Speed:**\n" ++
      (if truthyN trip.avg_speed then
        "Average: " ++ toFixed 1 (trip.avg_speed.getD 0) ++ " km/h\n" else "") ++
      (if truthyN trip.max_speed then
        "Maximum: " ++ toFixed 1 (trip.max_speed.getD 0) ++ " km/h\n" else "")
  let elev :=
    "\n**Elevation:**\n" ++
      (if truthyN trip.elevation_gain then
        "Gain: " ++ formatElevation trip.elevation_gain ++ "\n" else "") ++
      (if truthyN trip.elevation_loss then
        "Loss: " ++ formatElevation trip.elevation_loss ++ "\n" else "")
  let perf :=
    if truthyN trip.avg_hr || truthyN trip.avg_watts || truthyN trip.avg_cad then
      "\n**Performance Metrics:**\n" ++
        (if truthyN trip.avg_hr then
          "Heart Rate - Avg: " ++ jsShowOptNum trip.avg_hr ++ " bpm" ++
            (if truthyN trip.min_hr && truthyN trip.max_hr then
              " (Range: " ++ jsShowOptNum trip.min_hr ++ "-" ++ jsShowOptNum trip.max_hr ++ " bpm)"
            else "") ++ "\n"
        else "") ++
        (if truthyN trip.avg_watts then
          "Power - Avg: " ++ jsShowOptNum trip.avg_watts ++ "W" ++
            (if truthyN trip.min_watts && truthyN trip.max_watts then
              " (Range: " ++ jsShowOptNum trip.min_watts ++ "-" ++ jsShowOptNum trip.max_watts ++ "W)"
            else "") ++ "\n"
        else "") ++
        (if truthyN trip.avg_cad then
          "Cadence - Avg: " ++ jsShowOptNum trip.avg_cad ++ " rpm" ++
            (if truthyN trip.min_cad && truthyN trip.max_cad then
              " (Range: " ++ jsShowOptNum trip.min_cad ++ "-" ++ jsShowOptNum trip.max_cad ++ " rpm)"
            else "") ++ "\n"
        else "")
    else ""
  let energy :=
    if truthyN trip.calories then
      "\n**Energy:**\n" ++ "Calories: " ++ jsShowOptNum trip.calories ++ "\n"
    else ""
  let coords :=
    if truthyN trip.first_lat && truthyN trip.first_lng then
      "\n**Coordinates:**\n" ++
        "Start: " ++ toFixed 6 (trip.first_lat.getD 0) ++ ", " ++
          toFixed 6 (trip.first_lng.getD 0) ++ "\n" ++
        "End: " ++ optFixedOr 6 trip.last_lat "Unknown" ++ ", " ++
          optFixedOr 6 trip.last_lng "Unknown" ++ "\n" ++
        (if truthyN trip.sw_lat && truthyN trip.sw_lng &&
            truthyN trip.ne_lat && truthyN trip.ne_lng then
          "Bounds: SW(" ++ toFixed 6 (trip.sw_lat.getD 0) ++ ", " ++
            toFixed 6 (trip.sw_lng.getD 0) ++ ") to NE(" ++
            toFixed 6 (trip.ne_lat.getD 0) ++ ", " ++
            toFixed 6 (trip.ne_lng.getD 0) ++ ")\n"
        else "")
    else ""
  let loc :=
    "\n**Location:**\n" ++ orS trip.locality "Unknown" ++ ", " ++
      orS trip.administrative_area "Unknown" ++ ", " ++ orS trip.country_code "Unknown" ++ "\n"
  let fit :=
    if truthyN trip.fit_sport || truthyN trip.fit_sub_sport then
      "\n**FIT Data:**\n" ++
        (if truthyN trip.fit_sport then
          "Sport ID: " ++ jsShowOptNum trip.fit_sport ++ "\n" else "") ++
        (if truthyN trip.fit_sub_sport then
          "Sub-sport ID: " ++ jsShowOptNum trip.fit_sub_sport ++ "\n" else "")
    else ""
  let times :=
    "\n**Timestamps:**\n" ++ "Created: " ++ formatDate pf trip.created_at ++ "\n" ++
      "Updated: " ++ formatDate pf trip.updated_at ++ "\n"
  let trackData :=
    if truthyLen trip.track_points then
      let tl := (trip.track_points.getD []).length
      "\n**Track Data:**\n" ++ "Track points: " ++ toString tl ++ "\n"
    else ""
  head ++ details ++ charLine ++ speed ++ elev ++ perf ++ energy ++ coords ++ loc ++ fit ++
    times ++ trackData

/-- Source `formatTripDetails`. -/
def formatTripDetails (pf : Platform) : Option TripDetailResponse → Except JsException String
  | none => .error (.error "TypeError" "Cannot read properties of null (reading 'trip')")
  | some resp =>
    match resp.trip with
    | none => .ok "Trip not found."
    | some trip => .ok (formatTripDetailsBody pf trip)

/-- Source `formatUserDetails`. -/
def formatUserDetails (pf : Platform) : Option UserResponse → Except JsException String
  | none => .error (.error "TypeError" "Cannot read properties of null (reading 'user')")
  | some resp =>
    match resp.user with
    | none => .ok "User information not found."
    | some user =>
      .ok ("**User Profile**\n" ++
        "Name: " ++ orS user.name "Not provided" ++ "\n" ++
        "Email: " ++ orS user.email "Not provided" ++ "\n" ++
        "User ID: " ++ jsShowOptInt user.id ++ "\n" ++
        "Member since: " ++ formatDate pf user.created_at ++ "\n" ++
        "Last updated: " ++ formatDate pf user.updated_at ++ "\n")

/-- Body of the associated-routes `forEach` of `formatEventDetails`. -/
def eventRouteEntryStr (index : Nat) (route : Route) : String :=
  let k := index + 1
  let nm := orS route.name "Unnamed Route"
  let idS := jsShowOptInt route.id
  toString k ++ ". " ++ nm ++ " (ID: " ++ idS ++ ")\n" ++
    "   Distance: " ++ formatDistance route.distance ++ "\n" ++
    (if truthyS route.locality then "   Location: " ++ route.locality.getD "" ++ "\n" else "")

/-- Rendering of a present event by `formatEventDetails`. -/
def formatEventDetailsBody (pf : Platform) (event : Event) : String :=
  let nm := orS event.name "Unnamed Event"
  let idS := jsShowOptInt event.id
  "**" ++ nm ++ "**\nID: " ++ idS ++ "\n" ++
    (if truthyS event.description then "Description: " ++ event.description.getD "" ++ "\n" else "") ++
    "\n" ++
    "**Event Details:**\n" ++
    "Starts: " ++ formatDate pf event.starts_at ++ "\n" ++
    (if truthyS event.ends_at then "Ends: " ++ formatDate pf event.ends_at ++ "\n" else "") ++
    "Created: " ++ formatDate pf event.created_at ++ "\n" ++
    "Updated: " ++ formatDate pf event.updated_at ++ "\n" ++
    (if truthyLen event.routes then
      let rs := event.routes.getD []
      let rl := rs.length
      "\n**Associated Routes (" ++ toString rl ++ "):**\n" ++
        rs.enum.foldl (fun acc p => acc ++ eventRouteEntryStr p.1 p.2) ""
    else "")

/-- Source `formatEventDetails`. -/
def formatEventDetails (pf : Platform) : Option EventDetailResponse → Except JsException String
  | none => .error (.error "TypeError" "Cannot read properties of null (reading 'event')")
  | some resp =>
    match resp.event with
    | none => .ok "Event not found."
    | some event => .ok (formatEventDetailsBody pf event)

/-- Body of the `forEach` loop of `formatSyncResponse` for entry `index`:
`item.action.toUpperCase()` throws a `TypeError` when `action` is absent;
every other field is accessed defensively or interpolated directly. -/
def syncEntryE (pf : Platform) (index : Nat) (item : SyncItem) : Except JsException String :=
  match item.action with
  | none => .error (.error "TypeError" "Cannot read properties of undefined (reading 'toUpperCase')")
  | some action =>
    let k := index + 1
    let act := action.toUpper
    let ty := jsShowOptStr item.item_type
    let idS := jsShowOptInt item.item_id
    let dateS := formatDate pf item.datetime
    let ownerS := jsShowOptInt item.item_user_id
    let coll :=
      match item.collection with
      | some c => "   Collection: " ++ jsShowOptStr c.name ++ "\n"
      | none => ""
    .ok (toString k ++ ". **" ++ act ++ "** " ++ ty ++ " (ID: " ++ idS ++ ")\n" ++
      "   Date: " ++ dateS ++ "\n" ++ "   Owner: User " ++ ownerS ++ "\n" ++ coll ++ "\n")

/-- The string appended by `formatSyncResponse` for its footer when
`meta.next_sync_url` is truthy. -/
def syncFooterStr (meta : Option SyncMeta) : String :=
  let dt := jsShowOptStr (meta.bind SyncMeta.rwgps_datetime)
  "\n**Next Sync:**\n" ++ "Use datetime: " ++ dt ++ "\n" ++ "Next sync URL available\n"

/-- Source `formatSyncResponse`: absent or empty items short-circuit to the
fixed no-changes message; otherwise one entry per item (an entry whose item
lacks `action` throws out of the loop) and the next-sync footer when the
continuation cursor is truthy. -/
def formatSyncResponse (pf : Platform) : Option SyncResponse → Except JsException String
  | none => .ok "No changes found since the specified date."
  | some r =>
    match r.items with
    | none => .ok "No changes found since the specified date."
    | some items =>
      if items.length = 0 then .ok "No changes found since the specified date."
      else do
        let body ← items.enum.foldlM (fun acc p => do
          let e ← syncEntryE pf p.1 p.2
          pure (acc ++ e)) ""
        let n := items.length
        let footer :=
          if truthyS (r.meta.bind SyncMeta.next_sync_url) then syncFooterStr r.meta else ""
        pure ("Found " ++ toString n ++ " change(s) since sync:\n\n" ++ body ++ footer)

/-! ## Tool Façade

Each registered tool validates its arguments against its zod input schema
(done by the MCP SDK before the handler runs; a schema violation produces an
error result and the handler is never invoked), then runs the handler: one
client call inside `try`, rendering on success, `formatError` plus
`isError: true` in `catch`. -/

/-- A JSON argument value supplied by the caller for one schema field. -/
inductive JVal where
  | num (q : ℚ)
  | str (s : String)
  | bool (b : Bool)
  | null
deriving DecidableEq, Repr

/-- Schema `z.number().min(1)` applied to a required field (absent fields fail
required schemas).  There is no `.int()` in the source schema, so any
numeric value `≥ 1` passes. -/
def zodIdOk : Option JVal → Bool
  | some (.num q) => decide (1 ≤ q)
  | _ => false

/-- Schema `z.number().min(1).optional()`. -/
def zodPageOk : Option JVal → Bool
  | none => true
  | some (.num q) => decide (1 ≤ q)
  | some _ => false

/-- Schema `z.string()` applied to a required field. -/
def zodStrOk : Option JVal → Bool
  | some (.str _) => true
  | _ => false

/-- Schema `z.string().optional()`. -/
def zodOptStrOk : Option JVal → Bool
  | none => true
  | some (.str _) => true
  | some _ => false

/-- Numeric payload of a validated argument. -/
def jvalNum : Option JVal → Option ℚ
  | some (.num q) => some q
  | _ => none

/-- String payload of a validated argument. -/
def jvalStr : Option JVal → Option String
  | some (.str s) => some s
  | _ => none

/-- A tool result: the `content` texts and the `isError` flag (absent on the
success path of the source, i.e. `false`). -/
structure ToolResult where
  content : List String
  isError : Bool
deriving DecidableEq, Repr

/-- The `try/catch` body shared by all eight tool handlers: await the client
call, render, and turn any exception from either step into a single-text
error result via `formatError`. -/
def handleWith (fetched : Except JsException α) (render : α → Except JsException String) :
    ToolResult :=
  match fetched with
  | .error e => { content := [formatError e], isError := true }
  | .ok v =>
    match render v with
    | .error e => { content := [formatError e], isError := true }
    | .ok text => { content := [text], isError := false }

/-- Outcome of one tool invocation at the protocol boundary: either the SDK
rejected the arguments against the declared schema (modelled from the spec:
schema violations are surfaced as a validation failure and the handler never
runs), or the handler ran and produced a result. -/
inductive ToolOutcome where
  | invalidArgs
  | handled (r : ToolResult)
deriving DecidableEq, Repr

/-- One tool invocation together with the HTTP requests it issued
(endpoints, in order). -/
structure Invocation where
  outcome : ToolOutcome
  requests : List String
deriving DecidableEq, Repr

/-- The `get_routes` tool: schema `{ page: z.number().min(1).optional() }`,
delegate `getRoutes`, formatter `formatRoutesList`. -/
def invoke_get_routes (pf : Platform) (net : String → FetchOutcome (Option RoutesResponse))
    (page : Option JVal) : Invocation :=
  if zodPageOk page then
    let ep := routesEndpoint (jvalNum page)
    { outcome := .handled (handleWith (makeRequest (net ep))
        (fun r => .ok (formatRoutesList pf r)))
      requests := [ep] }
  else { outcome := .invalidArgs, requests := [] }

/-- The `get_route_details` tool: schema `{ id: z.number().min(1) }`,
delegate `getRoute`, formatter `formatRouteDetails`. -/
def invoke_get_route_details (pf : Platform)
    (net : String → FetchOutcome (Option RouteDetailResponse)) (id : Option JVal) : Invocation :=
  if zodIdOk id then
    let ep := routeEndpoint ((jvalNum id).getD 0)
    { outcome := .handled (handleWith (makeRequest (net ep)) (formatRouteDetails pf))
      requests := [ep] }
  else { outcome := .invalidArgs, requests := [] }

/-- The `get_trips` tool. -/
def invoke_get_trips (pf : Platform) (net : String → FetchOutcome (Option TripsResponse))
    (page : Option JVal) : Invocation :=
  if zodPageOk page then
    let ep := tripsEndpoint (jvalNum page)
    { outcome := .handled (handleWith (makeRequest (net ep))
        (fun r => .ok (formatTripsList pf r)))
      requests := [ep] }
  else { outcome := .invalidArgs, requests := [] }

/-- The `get_trip_details` tool. -/
def invoke_get_trip_details (pf : Platform)
    (net : String → FetchOutcome (Option TripDetailResponse)) (id : Option JVal) : Invocation :=
  if zodIdOk id then
    let ep := tripEndpoint ((jvalNum id).getD 0)
    { outcome := .handled (handleWith (makeRequest (net ep)) (formatTripDetails pf))
      requests := [ep] }
  else { outcome := .invalidArgs, requests := [] }

/-- The `get_current_user` tool: empty schema, delegate `getCurrentUser`,
formatter `formatUserDetails`. -/
def invoke_get_current_user (pf : Platform)
    (net : String → FetchOutcome (Option UserResponse)) : Invocation :=
  let ep := currentUserEndpoint
  { outcome := .handled (handleWith (makeRequest (net ep)) (formatUserDetails pf))
    requests := [ep] }

/-- The `get_events` tool. -/
def invoke_get_events (pf : Platform) (net : String → FetchOutcome (Option EventsResponse))
    (page : Option JVal) : Invocation :=
  if zodPageOk page then
    let ep := eventsEndpoint (jvalNum page)
    { outcome := .handled (handleWith (makeRequest (net ep))
        (fun r => .ok (formatEventsList pf r)))
      requests := [ep] }
  else { outcome := .invalidArgs, requests := [] }

/-- The `get_event_details` tool. -/
def invoke_get_event_details (pf : Platform)
    (net : String → FetchOutcome (Option EventDetailResponse)) (id : Option JVal) : Invocation :=
  if zodIdOk id then
    let ep := eventEndpoint ((jvalNum id).getD 0)
    { outcome := .handled (handleWith (makeRequest (net ep)) (formatEventDetails pf))
      requests := [ep] }
  else { outcome := .invalidArgs, requests := [] }

/-- The `sync_user_data` tool: schema `{ since: z.string(),
assets: z.string().optional() }`, delegate `getSync`, formatter
`formatSyncResponse`. -/
def invoke_sync_user_data (pf : Platform)
    (net : String → FetchOutcome (Option SyncResponse)) (since assets : Option JVal) :
    Invocation :=
  if zodStrOk since && zodOptStrOk assets then
    let ep := syncEndpoint ((jvalStr since).getD "") (jvalStr assets)
    { outcome := .handled (handleWith (makeRequest (net ep)) (formatSyncResponse pf))
      requests := [ep] }
  else { outcome := .invalidArgs, requests := [] }

/-! ## Substring machinery for concrete output checks -/

/-- Whether `n` is a prefix of `h` (character lists). -/
def listPrefixOf : List Char → List Char → Bool
  | [], _ => true
  | _ :: _, [] => false
  | a :: as, b :: bs => a = b && listPrefixOf as bs

/-- Whether `n` occurs as a contiguous sublist of `h`. -/
def listSubOf (n : List Char) : List Char → Bool
  | [] => listPrefixOf n []
  | c :: cs => listPrefixOf n (c :: cs) || listSubOf n cs

/-- Whether `needle` occurs as a substring of `hay`. -/
def strHasSub (needle hay : String) : Bool :=
  listSubOf needle.data hay.data

/-! ## Helper lemmas -/

/-- A concrete platform instance for evaluating theorems at concrete inputs:
it parses no string and renders by identity. -/
def pfStub : Platform := { dateParses := fun _ => false, dateRender := fun s => s }

theorem string_foldl_append (l : List String) (acc : String) :
    l.foldl (fun r s => r ++ s) acc = acc ++ String.join l := by
  induction l generalizing acc with
  | nil => simp [String.join, String.append_empty]
  | cons a t ih =>
    simp only [List.foldl, String.join] at *
    rw [ih (acc ++ a), ih ("" ++ a), String.empty_append, String.append_assoc]

theorem entry_foldl_eq {α : Type} (f : Nat × α → String) (l : List (Nat × α)) :
    l.foldl (fun acc p => acc ++ f p) "" = String.join (l.map f) := by
  rw [← List.foldl_map, string_foldl_append, String.empty_append]

theorem string_join_cons (a : String) (l : List String) :
    String.join (a :: l) = a ++ String.join l := by
  show List.foldl (fun r s => r ++ s) "" (a :: l) = _
  rw [List.foldl, string_foldl_append, String.empty_append]

theorem mem_enumFrom_snd {α : Type} :
    ∀ (l : List α) (n : Nat) (p : Nat × α), p ∈ List.enumFrom n l → p.2 ∈ l := by
  intro l
  induction l with
  | nil => intro n p h; cases h
  | cons a t ih =>
    intro n p h
    rcases List.mem_cons.mp h with h | h
    · rw [h]; exact List.mem_cons_self ..
    · exact List.mem_cons_of_mem _ (ih (n + 1) p h)

theorem mem_enum_snd {α : Type} (l : List α) (p : Nat × α) (h : p ∈ l.enum) : p.2 ∈ l :=
  mem_enumFrom_snd l 0 p h

theorem listPrefixOf_nil (l : List Char) : listPrefixOf [] l = true := rfl

theorem listPrefixOf_cons_same (c : Char) (l1 l2 : List Char) :
    listPrefixOf (c :: l1) (c :: l2) = listPrefixOf l1 l2 := by
  simp [listPrefixOf]

theorem listPrefixOf_append_same :
    ∀ (a l1 l2 : List Char), listPrefixOf (a ++ l1) (a ++ l2) = listPrefixOf l1 l2
  | [], _, _ => rfl
  | c :: cs, l1, l2 => by
    simp [listPrefixOf, listPrefixOf_append_same cs l1 l2]

theorem listPrefixOf_self_append : ∀ (l r : List Char), listPrefixOf l (l ++ r) = true
  | [], _ => rfl
  | c :: cs, r => by
    simp [listPrefixOf, listPrefixOf_self_append cs r]

/-- The string produced by `syncEntryE` when the item's `action` is present. -/
def syncEntryStr (pf : Platform) (index : Nat) (item : SyncItem) : String :=
  let k := index + 1
  let act := (item.action.getD "").toUpper
  let ty := jsShowOptStr item.item_type
  let idS := jsShowOptInt item.item_id
  let dateS := formatDate pf item.datetime
  let ownerS := jsShowOptInt item.item_user_id
  let coll :=
    match item.collection with
    | some c => "   Collection: " ++ jsShowOptStr c.name ++ "\n"
    | none => ""
  toString k ++ ". **" ++ act ++ "** " ++ ty ++ " (ID: " ++ idS ++ ")\n" ++
    "   Date: " ++ dateS ++ "\n" ++ "   Owner: User " ++ ownerS ++ "\n" ++ coll ++ "\n"

theorem syncEntryE_ok (pf : Platform) (index : Nat) (item : SyncItem) (a : String)
    (h : item.action = some a) :
    syncEntryE pf index item = .ok (syncEntryStr pf index item) := by
  simp [syncEntryE, syncEntryStr, h]

theorem sync_foldlM_ok (pf : Platform) (l : List (Nat × SyncItem)) (acc : String)
    (h : ∀ p ∈ l, (Prod.snd p).action.isSome = true) :
    (List.foldlM (fun acc p => do
        let e ← syncEntryE pf p.1 p.2
        pure (acc ++ e)) acc l : Except JsException String)
      = .ok (acc ++ String.join (l.map fun p => syncEntryStr pf p.1 p.2)) := by
  induction l generalizing acc with
  | nil =>
    simp only [List.foldlM, List.map, String.join, List.foldl, String.append_empty]
    rfl
  | cons p t ih =>
    obtain ⟨a, ha⟩ := Option.isSome_iff_exists.mp (h p (List.mem_cons_self ..))
    have hstep := syncEntryE_ok pf p.1 p.2 a ha
    have hbind : (List.foldlM (fun acc p => do
        let e ← syncEntryE pf p.1 p.2
        pure (acc ++ e)) acc (p :: t) : Except JsException String)
        = List.foldlM (fun acc p => do
            let e ← syncEntryE pf p.1 p.2
            pure (acc ++ e)) (acc ++ syncEntryStr pf p.1 p.2) t := by
      simp only [List.foldlM, hstep]
      rfl
    rw [hbind, ih _ (fun q hq => h q (List.mem_cons_of_mem _ hq)), List.map_cons,
      string_join_cons, String.append_assoc]

/-! ## Claim theorems -/

/-- C8 counterexample: the rendering step itself can raise.  A sync delta
item missing its `action` field makes `formatSyncResponse` throw a
`TypeError` (from `item.action.toUpperCase()`), and `formatRouteDetails`
throws on a `null` payload (from `response.route`) — contradicting the claim
that each formatter is total and never raises. -/
theorem c8_counterexample :
    formatSyncResponse pfStub
        (some { items := some [{ item_type := some "route", item_id := some 7 }], meta := none })
      = .error (.error "TypeError" "Cannot read properties of undefined (reading 'toUpperCase')")
    ∧ formatRouteDetails pfStub none
      = .error (.error "TypeError" "Cannot read properties of null (reading 'route')") :=
  ⟨rfl, rfl⟩

/-- C8 (amended): the formatters degrade to "not found"/"no data" messages
for an absent entity or collection and skip absent fields, and they are total
on any non-null payload whose delta items all carry an `action`; the two
exceptions exhibited by the counterexample (a delta item without `action`, a
`null` payload reaching a detail/user formatter) are the only throwing
shapes. -/
theorem c8_formatters_amended :
    (∀ pf resp, Except.isOk (formatRouteDetails pf (some resp)) = true)
    ∧ (∀ pf resp, Except.isOk (formatTripDetails pf (some resp)) = true)
    ∧ (∀ pf resp, Except.isOk (formatEventDetails pf (some resp)) = true)
    ∧ (∀ pf resp, Except.isOk (formatUserDetails pf (some resp)) = true)
    ∧ (∀ pf (resp : SyncResponse), (∀ it ∈ resp.items.getD [], it.action.isSome = true) →
        Except.isOk (formatSyncResponse pf (some resp)) = true) := by
  refine ⟨?_, ?_, ?_, ?_, ?_⟩
  · intro pf resp; rcases resp with ⟨_ | r⟩ <;> rfl
  · intro pf resp; rcases resp with ⟨_ | r⟩ <;> rfl
  · intro pf resp; rcases resp with ⟨_ | r⟩ <;> rfl
  · intro pf resp; rcases resp with ⟨_ | r⟩ <;> rfl
  · intro pf resp h
    rcases resp with ⟨items, meta⟩
    cases items with
    | none => rfl
    | some l =>
      simp only [Option.getD] at h
      have hfold := sync_foldlM_ok pf l.enum ""
        (fun p hp => h p.2 (mem_enum_snd l p hp))
      by_cases hl : l.length = 0
      · have h0 : l = [] := List.length_eq_zero.mp hl
        subst h0
        rfl
      · simp only [formatSyncResponse]
        rw [if_neg hl, hfold]
        rfl

/-- C8 amended witness at a concrete input: a sync response whose two items
both carry an `action` renders without raising. -/
theorem c8_formatters_amended_witness :
    (∀ it ∈ (SyncResponse.mk
        (some [{ action := some "create", item_type := some "route" },
               { action := some "delete", item_type := some "trip" }]) none).items.getD [],
      it.action.isSome = true)
    ∧ Except.isOk (formatSyncResponse pfStub (some (SyncResponse.mk
        (some [{ action := some "create", item_type := some "route" },
               { action := some "delete", item_type := some "trip" }]) none))) = true :=
  ⟨by decide, c8_formatters_amended.2.2.2.2 pfStub _ (by decide)⟩

/-- C9: the claim's fallback branch is dead code.  `new Date(s)` never throws
on a string and `toLocaleString` on an invalid date returns the fixed string
"Invalid Date" rather than throwing, so for a non-empty string the platform
fails to parse, `formatDate` returns "Invalid Date" — not the raw input
string the `catch` branch (and the spec) promise. -/
theorem c9_formatDate_invalid_date (pf : Platform)
    (h : pf.dateParses "not-a-date" = false) :
    formatDate pf (some "not-a-date") = "Invalid Date"
    ∧ formatDate pf (some "not-a-date") ≠ "not-a-date" := by
  have ht : truthyS (some "not-a-date") = true := by decide
  constructor
  · simp [formatDate, ht, jsToLocaleString, h]
  · simp [formatDate, ht, jsToLocaleString, h]

/-- C9 witness: the concrete stub platform parses nothing, and `formatDate`
returns "Invalid Date" on it. -/
theorem c9_formatDate_invalid_date_witness :
    pfStub.dateParses "not-a-date" = false
    ∧ (formatDate pfStub (some "not-a-date") = "Invalid Date"
      ∧ formatDate pfStub (some "not-a-date") ≠ "not-a-date") :=
  ⟨rfl, c9_formatDate_invalid_date pfStub rfl⟩

/-- C10: an absent, null or empty list (routes, trips, events, sync items)
short-circuits the formatter to its fixed message — equal to that constant
string and nothing else — even when pagination or sync metadata carrying a
nonzero total count or a continuation indicator is present in the same
response. -/
theorem c10_empty_messages :
    (∀ pf (m : Option ListMeta),
      formatRoutesList pf none = "No routes found."
      ∧ formatRoutesList pf (some { routes := none, meta := m }) = "No routes found."
      ∧ formatRoutesList pf (some { routes := some [], meta := m }) = "No routes found.")
    ∧ (∀ pf (m : Option ListMeta),
      formatTripsList pf none = "No trips found."
      ∧ formatTripsList pf (some { trips := none, meta := m }) = "No trips found."
      ∧ formatTripsList pf (some { trips := some [], meta := m }) = "No trips found.")
    ∧ (∀ pf (m : Option ListMeta),
      formatEventsList pf none = "No events found."
      ∧ formatEventsList pf (some { events := none, meta := m }) = "No events found."
      ∧ formatEventsList pf (some { events := some [], meta := m }) = "No events found.")
    ∧ (∀ pf (m : Option SyncMeta),
      formatSyncResponse pf none = .ok "No changes found since the specified date."
      ∧ formatSyncResponse pf (some { items := none, meta := m })
          = .ok "No changes found since the specified date."
      ∧ formatSyncResponse pf (some { items := some [], meta := m })
          = .ok "No changes found since the specified date.") :=
  ⟨fun _ _ => ⟨rfl, rfl, rfl⟩, fun _ _ => ⟨rfl, rfl, rfl⟩,
   fun _ _ => ⟨rfl, rfl, rfl⟩, fun _ _ => ⟨rfl, rfl, rfl⟩⟩

/-- C2: every Resource Client operation, on any reply whose status is not in
the 2xx range, fails with the `RideWithGPSApiError` (the UpstreamError of the
spec) carrying the numeric status, a message embedding the reason phrase,
and the raw unparsed body text — never an `ok` value — and that error is a
different constructor from the transport failure a rejected fetch
produces. -/
theorem c2_upstream_error (status : Nat) (statusText bodyText : String)
    (hst : ¬(200 ≤ status ∧ status ≤ 299)) :
    (∀ (α : Type) (jsonResult : Except String α),
      makeRequest (.response status statusText bodyText jsonResult)
        = .error (.rwgpsApiError
            ("API request failed: " ++ toString status ++ " " ++ statusText) status bodyText))
    ∧ (∀ page (j : Except String (Option RoutesResponse)),
        apiGetRoutes (fun _ => .response status statusText bodyText j) page
          = .error (.rwgpsApiError
              ("API request failed: " ++ toString status ++ " " ++ statusText) status bodyText))
    ∧ (∀ id (j : Except String (Option RouteDetailResponse)),
        apiGetRoute (fun _ => .response status statusText bodyText j) id
          = .error (.rwgpsApiError
              ("API request failed: " ++ toString status ++ " " ++ statusText) status bodyText))
    ∧ (∀ page (j : Except String (Option TripsResponse)),
        apiGetTrips (fun _ => .response status statusText bodyText j) page
          = .error (.rwgpsApiError
              ("API request failed: " ++ toString status ++ " " ++ statusText) status bodyText))
    ∧ (∀ id (j : Except String (Option TripDetailResponse)),
        apiGetTrip (fun _ => .response status statusText bodyText j) id
          = .error (.rwgpsApiError
              ("API request failed: " ++ toString status ++ " " ++ statusText) status bodyText))
    ∧ (∀ page (j : Except String (Option EventsResponse)),
        apiGetEvents (fun _ => .response status statusText bodyText j) page
          = .error (.rwgpsApiError
              ("API request failed: " ++ toString status ++ " " ++ statusText) status bodyText))
    ∧ (∀ id (j : Except String (Option EventDetailResponse)),
        apiGetEvent (fun _ => .response status statusText bodyText j) id
          = .error (.rwgpsApiError
              ("API request failed: " ++ toString status ++ " " ++ statusText) status bodyText))
    ∧ (∀ (j : Except String (Option UserResponse)),
        apiGetCurrentUser (fun _ => .response status statusText bodyText j)
          = .error (.rwgpsApiError
              ("API request failed: " ++ toString status ++ " " ++ statusText) status bodyText))
    ∧ (∀ since assets (j : Except String (Option SyncResponse)),
        apiGetSync (fun _ => .response status statusText bodyText j) since assets
          = .error (.rwgpsApiError
              ("API request failed: " ++ toString status ++ " " ++ statusText) status bodyText))
    ∧ (∀ (α : Type) (m : String),
        makeRequest (α := α) (.reject m) = .error (.error "TypeError" m))
    ∧ (∀ m1 s b n m2, JsException.rwgpsApiError m1 s b ≠ JsException.error n m2) := by
  have hmk : ∀ (α : Type) (jsonResult : Except String α),
      makeRequest (.response status statusText bodyText jsonResult)
        = .error (.rwgpsApiError
            ("API request failed: " ++ toString status ++ " " ++ statusText) status bodyText) := by
    intro α jsonResult
    simp only [makeRequest]
    rw [if_neg hst]
  refine ⟨hmk, ?_, ?_, ?_, ?_, ?_, ?_, ?_, ?_, ?_, ?_⟩
  · intro page j; exact hmk _ j
  · intro id j; exact hmk _ j
  · intro page j; exact hmk _ j
  · intro id j; exact hmk _ j
  · intro page j; exact hmk _ j
  · intro id j; exact hmk _ j
  · intro j; exact hmk _ j
  · intro since assets j; exact hmk _ j
  · intro α m; rfl
  · intro m1 s b n m2 hcontra; cases hcontra

/-- C2 witness at the spec's own scenario: HTTP 401 Unauthorized with a JSON
error body. -/
theorem c2_upstream_error_witness :
    ¬((200:Nat) ≤ 401 ∧ (401:Nat) ≤ 299)
    ∧ apiGetCurrentUser (fun _ => .response 401 "Unauthorized"
        "\x7b\"error\":\"invalid token\"\x7d"
        (.error "unexpected token" : Except String (Option UserResponse)))
      = .error (.rwgpsApiError
          ("API request failed: " ++ toString (401:Nat) ++ " " ++ "Unauthorized") 401
          "\x7b\"error\":\"invalid token\"\x7d") :=
  ⟨by decide, (c2_upstream_error 401 "Unauthorized" "\x7b\"error\":\"invalid token\"\x7d"
      (by decide)).2.2.2.2.2.2.2.1 (.error "unexpected token")⟩

/-- C3 counterexample: the id schema is `z.number().min(1)` without `.int()`,
so the non-integer id `1.5` passes validation, the handler runs and one HTTP
request is issued — the claim promised a validation failure with zero
requests for every non-integer id. -/
theorem c3_counterexample :
    invoke_get_route_details pfStub (fun _ => .reject "offline") (some (.num (3/2)))
      = { outcome := .handled { content := ["Error: offline"], isError := true }
          requests := ["/api/v1/routes/1.5.json"] } := by
  with_unfolding_all decide

/-- C3 (amended): a missing, non-numeric or `< 1` id (and a present
non-numeric or `< 1` page) is rejected by schema validation before any
network call — zero requests, an outcome structurally distinct from any
handler result — but any numeric value `≥ 1` passes validation, integer or
not, and then exactly one request is issued. -/
theorem c3_validation_amended :
    (∀ pf net arg, zodIdOk arg = false →
      invoke_get_route_details pf net arg = { outcome := .invalidArgs, requests := [] })
    ∧ (∀ pf net arg, zodIdOk arg = false →
      invoke_get_trip_details pf net arg = { outcome := .invalidArgs, requests := [] })
    ∧ (∀ pf net arg, zodIdOk arg = false →
      invoke_get_event_details pf net arg = { outcome := .invalidArgs, requests := [] })
    ∧ (∀ pf net arg, zodPageOk arg = false →
      invoke_get_routes pf net arg = { outcome := .invalidArgs, requests := [] })
    ∧ (∀ pf net arg, zodPageOk arg = false →
      invoke_get_trips pf net arg = { outcome := .invalidArgs, requests := [] })
    ∧ (∀ pf net arg, zodPageOk arg = false →
      invoke_get_events pf net arg = { outcome := .invalidArgs, requests := [] })
    ∧ (∀ q : ℚ, q < 1 → zodIdOk (some (.num q)) = false ∧ zodPageOk (some (.num q)) = false)
    ∧ (∀ s, zodIdOk (some (.str s)) = false ∧ zodPageOk (some (.str s)) = false)
    ∧ zodIdOk none = false
    ∧ (∀ q : ℚ, 1 ≤ q → zodIdOk (some (.num q)) = true
        ∧ ∀ pf net, (invoke_get_route_details pf net (some (.num q))).requests
            = [routeEndpoint q])
    ∧ (∀ r, ToolOutcome.invalidArgs ≠ ToolOutcome.handled r) := by
  refine ⟨?_, ?_, ?_, ?_, ?_, ?_, ?_, ?_, rfl, ?_, ?_⟩
  · intro pf net arg h; simp [invoke_get_route_details, h]
  · intro pf net arg h; simp [invoke_get_trip_details, h]
  · intro pf net arg h; simp [invoke_get_event_details, h]
  · intro pf net arg h; simp [invoke_get_routes, h]
  · intro pf net arg h; simp [invoke_get_trips, h]
  · intro pf net arg h; simp [invoke_get_events, h]
  · intro q h
    constructor <;> simp [zodIdOk, zodPageOk, not_le.mpr h]
  · intro s; exact ⟨rfl, rfl⟩
  · intro q h
    have hz : zodIdOk (some (.num q)) = true := by simp [zodIdOk, h]
    refine ⟨hz, fun pf net => ?_⟩
    simp [invoke_get_route_details, hz, jvalNum]
  · intro r hcontra; cases hcontra

/-- C3 amended witness: id `0` is rejected with zero requests; id `2` passes
and issues one request. -/
theorem c3_validation_amended_witness :
    zodIdOk (some (.num 0)) = false
    ∧ invoke_get_route_details pfStub (fun _ => .reject "offline") (some (.num 0))
        = { outcome := .invalidArgs, requests := [] }
    ∧ (1:ℚ) ≤ 2
    ∧ (invoke_get_route_details pfStub (fun _ => .reject "offline") (some (.num 2))).requests
        = [routeEndpoint 2] :=
  ⟨by with_unfolding_all decide,
   c3_validation_amended.1 pfStub _ _ (by with_unfolding_all decide),
   by norm_num,
   ((c3_validation_amended.2.2.2.2.2.2.2.2.2.1 2 (by norm_num)).2 pfStub _)⟩

theorem truthyN_none_eq : truthyN none = false := rfl

theorem truthyN_some_zero : truthyN (some 0) = false := by
  with_unfolding_all decide

theorem formatDistance_falsy :
    formatDistance none = "Unknown" ∧ formatDistance (some 0) = "Unknown" :=
  ⟨rfl, by simp [formatDistance, truthyN_some_zero]⟩

theorem formatElevation_falsy :
    formatElevation none = "Unknown" ∧ formatElevation (some 0) = "Unknown" :=
  ⟨rfl, by simp [formatElevation, truthyN_some_zero]⟩

theorem formatDuration_falsy :
    formatDuration none = "Unknown" ∧ formatDuration (some 0) = "Unknown" :=
  ⟨rfl, by simp [formatDuration, truthyN_some_zero]⟩

/-- Every numeric field of a route set to `0`. -/
def routeZeroNums (r : Route) : Route :=
  { r with
    distance := some 0
    elevation_gain := some 0
    elevation_loss := some 0
    unpaved_pct := some 0
    first_lat := some 0
    first_lng := some 0
    last_lat := some 0
    last_lng := some 0
    sw_lat := some 0
    sw_lng := some 0
    ne_lat := some 0
    ne_lng := some 0 }

/-- Every numeric field of a route absent. -/
def routeNoneNums (r : Route) : Route :=
  { r with
    distance := none
    elevation_gain := none
    elevation_loss := none
    unpaved_pct := none
    first_lat := none
    first_lng := none
    last_lat := none
    last_lng := none
    sw_lat := none
    sw_lng := none
    ne_lat := none
    ne_lng := none }

/-- C5 counterexample: falsy fields are not uniformly rendered as "Unknown".
On a route with an empty name and a zero elevation gain, the detail renderer
shows the name placeholder "Unnamed Route" (not "Unknown") and renders the
elevation-gain field not at all — the line is omitted entirely. -/
theorem c5_counterexample :
    (formatRouteDetailsBody pfStub
        { name := some "", elevation_gain := some 0, id := some 5 }).startsWith
        "**Unnamed Route**" = true
    ∧ strHasSub "Elevation Gain"
        (formatRouteDetailsBody pfStub { name := some "", elevation_gain := some 0, id := some 5 })
        = false := by
  set_option maxRecDepth 100000 in with_unfolding_all decide

/-- C5 (amended): falsy numeric inputs to the unit formatters render as
"Unknown" (never as an empty string, zero or null), falsy names and
descriptions render their own fixed placeholders or are omitted, and — the
operative boundary property — the route detail rendering with every numeric
field set to `0` is byte-for-byte identical to the rendering with every
numeric field absent. -/
theorem c5_placeholders_amended :
    (formatDistance none = "Unknown" ∧ formatDistance (some 0) = "Unknown")
    ∧ (formatElevation none = "Unknown" ∧ formatElevation (some 0) = "Unknown")
    ∧ (formatDuration none = "Unknown" ∧ formatDuration (some 0) = "Unknown")
    ∧ (∀ pf, formatDate pf none = "Unknown" ∧ formatDate pf (some "") = "Unknown")
    ∧ (∀ pf r, formatRouteDetailsBody pf (routeZeroNums r)
        = formatRouteDetailsBody pf (routeNoneNums r)) := by
  refine ⟨formatDistance_falsy, formatElevation_falsy, formatDuration_falsy,
    fun pf => ⟨rfl, rfl⟩, fun pf r => ?_⟩
  simp [formatRouteDetailsBody, routeZeroNums, routeNoneNums, truthyN_some_zero,
    formatDistance_falsy.1, formatDistance_falsy.2, truthyN_none_eq]

/-- C7: for a non-empty routes list, the `get_routes` rendering is exactly
the header (reporting the list length, and — when pagination metadata is
present — the metadata's record count as the total), followed by one entry
per route in order (so exactly N numbered entries for N routes), followed by
the further-pages hint precisely when the metadata's next-page indicator is
truthy; and each entry opens with its 1-based number, the route name and the
route id. -/
theorem c7_routes_list_render (pf : Platform) (resp : RoutesResponse) (routes : List Route)
    (hr : resp.routes = some routes) (hne : routes ≠ []) :
    formatRoutesList pf (some resp)
      = ("Found " ++ toString routes.length ++ " route(s)"
          ++ (match resp.meta.bind ListMeta.pagination with
              | some pg => " (Page showing " ++ toString routes.length ++ " of "
                  ++ jsShowOptInt pg.record_count ++ " total)"
              | none => "")
          ++ ":\n\n")
        ++ String.join (routes.enum.map fun p => routesEntryStr pf p.1 p.2)
        ++ (if truthyS ((resp.meta.bind ListMeta.pagination).bind Pagination.next_page_url) then
              "Use the next page parameter to get more results."
            else "")
    ∧ (routes.enum.map fun p => routesEntryStr pf p.1 p.2).length = routes.length
    ∧ (∀ p ∈ routes.enum,
        listPrefixOf (toString (p.1 + 1) ++ ". **" ++ orS p.2.name "Unnamed Route"
            ++ "** (ID: " ++ jsShowOptInt p.2.id ++ ")\n").data
          (routesEntryStr pf p.1 p.2).data = true) := by
  refine ⟨?_, by simp, ?_⟩
  · simp only [formatRoutesList, hr]
    rw [if_neg (fun h => hne (List.length_eq_zero.mp h)),
      entry_foldl_eq (fun p => routesEntryStr pf p.1 p.2)]
  · intro p hp
    simp [routesEntryStr, String.data_append, List.append_assoc, listPrefixOf_append_same,
      listPrefixOf_cons_same, listPrefixOf_self_append, listPrefixOf_nil]

/-- A two-route fixture list. -/
def c7FixtureRoutes : List Route :=
  [{ name := some "A", id := some 1 }, { name := some "B", id := some 2 }]

/-- A routes response around `c7FixtureRoutes` whose pagination metadata
carries a record count of 5 and a next-page URL. -/
def c7FixturePagination : Pagination :=
  { record_count := some 5
    next_page_url := some "https://ridewithgps.com/api/v1/routes.json?page=2" }

def c7FixtureResp : RoutesResponse :=
  { routes := some c7FixtureRoutes
    meta := some { pagination := some c7FixturePagination } }

/-- C7 witness: the renderer emits exactly one entry per route of the
two-route fixture. -/
theorem c7_routes_list_render_witness :
    (c7FixtureRoutes.enum.map fun p => routesEntryStr pfStub p.1 p.2).length
      = c7FixtureRoutes.length :=
  (c7_routes_list_render pfStub c7FixtureResp c7FixtureRoutes rfl
    (by simp [c7FixtureRoutes])).2.1

/-- C6: for a non-empty sync item list whose items carry an `action`, the
sync rendering is exactly the header, one entry per delta item in order
(exactly one numbered entry each), and the next-sync footer — which mentions
the continuation cursor — precisely when the response metadata's
`next_sync_url` is truthy; each entry consists of its 1-based number, the
upper-cased action, the item type, the item id, the timestamp, the owning
user id, and the collection name when a collection is present. -/
theorem c6_sync_renderer (pf : Platform) (resp : SyncResponse) (items : List SyncItem)
    (hi : resp.items = some items) (hne : items ≠ [])
    (ha : ∀ it ∈ items, it.action.isSome = true) :
    formatSyncResponse pf (some resp)
      = .ok (("Found " ++ toString items.length ++ " change(s) since sync:\n\n")
          ++ String.join (items.enum.map fun p => syncEntryStr pf p.1 p.2)
          ++ (if truthyS (resp.meta.bind SyncMeta.next_sync_url) then syncFooterStr resp.meta
              else ""))
    ∧ (items.enum.map fun p => syncEntryStr pf p.1 p.2).length = items.length
    ∧ (∀ p ∈ items.enum, ∀ a, p.2.action = some a →
        syncEntryStr pf p.1 p.2
          = toString (p.1 + 1) ++ ". **" ++ a.toUpper ++ "** " ++ jsShowOptStr p.2.item_type
            ++ " (ID: " ++ jsShowOptInt p.2.item_id ++ ")\n"
            ++ "   Date: " ++ formatDate pf p.2.datetime ++ "\n"
            ++ "   Owner: User " ++ jsShowOptInt p.2.item_user_id ++ "\n"
            ++ (match p.2.collection with
                | some c => "   Collection: " ++ jsShowOptStr c.name ++ "\n"
                | none => "") ++ "\n") := by
  refine ⟨?_, by simp, ?_⟩
  · have hfold := sync_foldlM_ok pf items.enum ""
      (fun p hp => ha p.2 (mem_enum_snd items p hp))
    simp only [formatSyncResponse, hi]
    rw [if_neg (fun h => hne (List.length_eq_zero.mp h)), hfold, String.empty_append]
    rfl
  · intro p hp a h
    simp [syncEntryStr, h, String.append_assoc]

/-- A two-item sync fixture: one created route, one deleted trip. -/
def c6FixtureItems : List SyncItem :=
  [{ action := some "create", item_type := some "route", item_id := some 101,
     item_user_id := some 7, datetime := some "2024-01-02T03:04:05Z" },
   { action := some "delete", item_type := some "trip", item_id := some 202,
     item_user_id := some 7, datetime := some "2024-01-03T04:05:06Z" }]

/-- A sync response around `c6FixtureItems` whose metadata carries a
continuation cursor. -/
def c6FixtureResp : SyncResponse :=
  { items := some c6FixtureItems
    meta := some { next_sync_url := some "https://ridewithgps.com/api/v1/sync.json?since=next"
                   rwgps_datetime := some "2024-01-03T04:05:06Z" } }

/-- C6 witness: the renderer emits exactly one entry per delta item of the
two-item fixture. -/
theorem c6_sync_renderer_witness :
    (c6FixtureItems.enum.map fun p => syncEntryStr pfStub p.1 p.2).length
      = c6FixtureItems.length :=
  (c6_sync_renderer pfStub c6FixtureResp c6FixtureItems rfl
    (by simp [c6FixtureItems]) (by simp [c6FixtureItems])).2.1

theorem digitChar10_isDigit (d : Nat) : (digitChar10 d).isDigit = true := by
  have h : d % 10 < 10 := Nat.mod_lt _ (by omega)
  unfold digitChar10
  set m := d % 10 with hm
  interval_cases m <;> decide

theorem natDigitsAux_digits : ∀ (fuel n : Nat) (acc : List Char),
    (∀ c ∈ acc, c.isDigit = true) → ∀ c ∈ natDigitsAux fuel n acc, c.isDigit = true := by
  intro fuel
  induction fuel with
  | zero => intro n acc hacc c hc; exact hacc c hc
  | succ f ih =>
    intro n acc hacc c hc
    unfold natDigitsAux at hc
    by_cases hn : n = 0
    · rw [if_pos hn] at hc; exact hacc c hc
    · rw [if_neg hn] at hc
      refine ih (n / 10) _ (fun d hd => ?_) c hc
      rcases List.mem_cons.mp hd with h | h
      · rw [h]; exact digitChar10_isDigit _
      · exact hacc d h

theorem natToStr_digits (n : Nat) : ∀ c ∈ (natToStr n).data, c.isDigit = true := by
  unfold natToStr
  by_cases hn : n = 0
  · rw [if_pos hn]
    intro c hc
    simp only [List.mem_singleton] at hc
    rw [hc]; decide
  · rw [if_neg hn]
    exact natDigitsAux_digits (n + 1) n [] (fun c hc => absurd hc (List.not_mem_nil c))

theorem fracDigits_digits : ∀ (fuel : Nat) (r : ℚ), ∀ c ∈ fracDigits fuel r, c.isDigit = true := by
  intro fuel
  induction fuel with
  | zero => intro r c hc; cases hc
  | succ f ih =>
    intro r c hc
    unfold fracDigits at hc
    by_cases hr : r = 0
    · rw [if_pos hr] at hc; cases hc
    · rw [if_neg hr] at hc
      rcases List.mem_cons.mp hc with h | h
      · rw [h]; exact digitChar10_isDigit _
      · exact ih _ c h

theorem jsNumToString_chars (q : ℚ) (hq : 0 ≤ q) :
    ∀ c ∈ (jsNumToString q).data, c.isDigit = true ∨ c = '.' := by
  intro c hc
  unfold jsNumToString at hc
  rw [if_neg (not_lt.mpr hq), if_neg (not_lt.mpr hq)] at hc
  set ip : Nat := ((q).floor).toNat with hip
  by_cases hfr : q - (ip : ℚ) = 0
  · rw [if_pos hfr, String.empty_append] at hc
    exact Or.inl (natToStr_digits ip c hc)
  · rw [if_neg hfr] at hc
    simp only [String.empty_append, String.data_append] at hc
    rcases List.mem_append.mp hc with h | h
    · rcases List.mem_append.mp h with h2 | h2
      · exact Or.inl (natToStr_digits ip c h2)
      · exact Or.inr (List.mem_singleton.mp h2)
    · exact Or.inl (fracDigits_digits 20 _ c h)

theorem formEncodeChar_digit (c : Char) (h : c.isDigit = true) :
    formEncodeChar c = String.singleton c := by
  unfold formEncodeChar
  rw [if_pos (by simp [Char.isAlphanum, h])]

theorem formEncodeStr_id_of (l : List Char)
    (h : ∀ c ∈ l, formEncodeChar c = String.singleton c) :
    String.join (l.map formEncodeChar) = String.mk l := by
  induction l with
  | nil => rfl
  | cons c cs ih =>
    rw [List.map_cons, string_join_cons, h c (List.mem_cons_self ..),
      ih (fun d hd => h d (List.mem_cons_of_mem _ hd))]
    rfl

theorem formEncodeStr_eq_self (s : String) (h : ∀ c ∈ s.data, c.isDigit = true ∨ c = '.') :
    formEncodeStr s = s := by
  have hchar : ∀ c ∈ s.data, formEncodeChar c = String.singleton c := by
    intro c hc
    rcases h c hc with hd | hd
    · exact formEncodeChar_digit c hd
    · rw [hd]; decide
  unfold formEncodeStr
  rw [formEncodeStr_id_of s.data hchar]

/-- C4: for every numeric page `≥ 1` the list endpoints carry a query string
that is exactly `page=` followed by the page value's JavaScript rendering
(the form-urlencoder is the identity on it), and an absent page produces the
bare endpoint with no query string at all. -/
theorem c4_page_query (p : ℚ) (hp : 1 ≤ p) :
    routesEndpoint (some p) = "/api/v1/routes.json?page=" ++ jsNumToString p
    ∧ tripsEndpoint (some p) = "/api/v1/trips.json?page=" ++ jsNumToString p
    ∧ eventsEndpoint (some p) = "/api/v1/events.json?page=" ++ jsNumToString p
    ∧ pageParams (some p) = [("page", jsNumToString p)]
    ∧ formEncodeStr (jsNumToString p) = jsNumToString p
    ∧ routesEndpoint none = "/api/v1/routes.json"
    ∧ tripsEndpoint none = "/api/v1/trips.json"
    ∧ eventsEndpoint none = "/api/v1/events.json"
    ∧ pageParams none = [] := by
  have hq : (0:ℚ) ≤ p := le_trans zero_le_one hp
  have hpn : p ≠ 0 := (lt_of_lt_of_le zero_lt_one hp).ne'
  have hpt : truthyN (some p) = true := by
    simp [truthyN, hpn]
  have henc : formEncodeStr (jsNumToString p) = jsNumToString p :=
    formEncodeStr_eq_self _ (jsNumToString_chars p hq)
  have hparams : pageParams (some p) = [("page", jsNumToString p)] := by
    simp [pageParams, hpt]
  have hser : searchParamsToString [("page", jsNumToString p)]
      = "page=" ++ jsNumToString p := by
    show formEncodeStr "page" ++ "=" ++ formEncodeStr (jsNumToString p)
      = "page=" ++ jsNumToString p
    rw [henc, show formEncodeStr "page" = "page" from by decide,
      show ("page" ++ "=" : String) = "page=" from by decide]
  have hne : ("page=" ++ jsNumToString p) ≠ "" := by
    intro hcontra
    have hlen := congrArg String.length hcontra
    rw [String.length_append, show ("page=" : String).length = 5 from rfl,
      show ("" : String).length = 0 from rfl] at hlen
    omega
  have hq1 : ∀ base : String, withQuery base (searchParamsToString (pageParams (some p)))
      = base ++ "?" ++ ("page=" ++ jsNumToString p) := by
    intro base
    rw [hparams, hser]
    unfold withQuery
    rw [if_pos hne, ← String.append_assoc]
  refine ⟨?_, ?_, ?_, hparams, henc, rfl, rfl, rfl, rfl⟩
  · show withQuery "/api/v1/routes.json" (searchParamsToString (pageParams (some p))) = _
    rw [hq1, String.append_assoc, ← String.append_assoc,
      show ("/api/v1/routes.json" ++ "?" : String) = "/api/v1/routes.json?" from by decide,
      ← String.append_assoc,
      show ("/api/v1/routes.json?" ++ "page=" : String) = "/api/v1/routes.json?page="
        from by decide]
  · show withQuery "/api/v1/trips.json" (searchParamsToString (pageParams (some p))) = _
    rw [hq1, String.append_assoc, ← String.append_assoc,
      show ("/api/v1/trips.json" ++ "?" : String) = "/api/v1/trips.json?" from by decide,
      ← String.append_assoc,
      show ("/api/v1/trips.json?" ++ "page=" : String) = "/api/v1/trips.json?page="
        from by decide]
  · show withQuery "/api/v1/events.json" (searchParamsToString (pageParams (some p))) = _
    rw [hq1, String.append_assoc, ← String.append_assoc,
      show ("/api/v1/events.json" ++ "?" : String) = "/api/v1/events.json?" from by decide,
      ← String.append_assoc,
      show ("/api/v1/events.json?" ++ "page=" : String) = "/api/v1/events.json?page="
        from by decide]

/-- C4 witness at page 2. -/
theorem c4_page_query_witness :
    (1:ℚ) ≤ 2
    ∧ routesEndpoint (some 2) = "/api/v1/routes.json?page=" ++ jsNumToString 2 :=
  ⟨by norm_num, (c4_page_query 2 (by norm_num)).1⟩

/-- C1: the handler body is the error-containment boundary.  Any exception
from the client call or from the rendering step becomes a result whose
content is the single `formatError` text with the error flag set; every
result carries exactly one text block; each of the eight tools routes every
failing client call and every rendering failure through that boundary; and a
schema-invalid input yields the SDK-level validation outcome with the
handler never running.  No failure escapes as an exception: every invocation
is a total function into `Invocation`. -/
theorem c1_error_containment :
    (∀ (α : Type) (e : JsException) (render : α → Except JsException String),
      handleWith (.error e) render = { content := [formatError e], isError := true })
    ∧ (∀ (α : Type) (v : α) (render : α → Except JsException String) (e : JsException),
      render v = .error e →
        handleWith (.ok v) render = { content := [formatError e], isError := true })
    ∧ (∀ (α : Type) (fetched : Except JsException α) (render : α → Except JsException String),
      (handleWith fetched render).content.length = 1)
    ∧ (∀ pf net page e, zodPageOk page = true →
      makeRequest (net (routesEndpoint (jvalNum page))) = .error e →
        invoke_get_routes pf net page
          = { outcome := .handled { content := [formatError e], isError := true }
              requests := [routesEndpoint (jvalNum page)] })
    ∧ (∀ pf net id e, zodIdOk id = true →
      makeRequest (net (routeEndpoint ((jvalNum id).getD 0))) = .error e →
        invoke_get_route_details pf net id
          = { outcome := .handled { content := [formatError e], isError := true }
              requests := [routeEndpoint ((jvalNum id).getD 0)] })
    ∧ (∀ pf net page e, zodPageOk page = true →
      makeRequest (net (tripsEndpoint (jvalNum page))) = .error e →
        invoke_get_trips pf net page
          = { outcome := .handled { content := [formatError e], isError := true }
              requests := [tripsEndpoint (jvalNum page)] })
    ∧ (∀ pf net id e, zodIdOk id = true →
      makeRequest (net (tripEndpoint ((jvalNum id).getD 0))) = .error e →
        invoke_get_trip_details pf net id
          = { outcome := .handled { content := [formatError e], isError := true }
              requests := [tripEndpoint ((jvalNum id).getD 0)] })
    ∧ (∀ pf net e, makeRequest (net currentUserEndpoint) = .error e →
        invoke_get_current_user pf net
          = { outcome := .handled { content := [formatError e], isError := true }
              requests := [currentUserEndpoint] })
    ∧ (∀ pf net page e, zodPageOk page = true →
      makeRequest (net (eventsEndpoint (jvalNum page))) = .error e →
        invoke_get_events pf net page
          = { outcome := .handled { content := [formatError e], isError := true }
              requests := [eventsEndpoint (jvalNum page)] })
    ∧ (∀ pf net id e, zodIdOk id = true →
      makeRequest (net (eventEndpoint ((jvalNum id).getD 0))) = .error e →
        invoke_get_event_details pf net id
          = { outcome := .handled { content := [formatError e], isError := true }
              requests := [eventEndpoint ((jvalNum id).getD 0)] })
    ∧ (∀ pf net since assets e, (zodStrOk since && zodOptStrOk assets) = true →
      makeRequest (net (syncEndpoint ((jvalStr since).getD "") (jvalStr assets))) = .error e →
        invoke_sync_user_data pf net since assets
          = { outcome := .handled { content := [formatError e], isError := true }
              requests := [syncEndpoint ((jvalStr since).getD "") (jvalStr assets)] })
    ∧ (∀ pf net id v e, zodIdOk id = true →
      makeRequest (net (routeEndpoint ((jvalNum id).getD 0))) = .ok v →
      formatRouteDetails pf v = .error e →
        invoke_get_route_details pf net id
          = { outcome := .handled { content := [formatError e], isError := true }
              requests := [routeEndpoint ((jvalNum id).getD 0)] })
    ∧ (∀ pf net id v e, zodIdOk id = true →
      makeRequest (net (tripEndpoint ((jvalNum id).getD 0))) = .ok v →
      formatTripDetails pf v = .error e →
        invoke_get_trip_details pf net id
          = { outcome := .handled { content := [formatError e], isError := true }
              requests := [tripEndpoint ((jvalNum id).getD 0)] })
    ∧ (∀ pf net id v e, zodIdOk id = true →
      makeRequest (net (eventEndpoint ((jvalNum id).getD 0))) = .ok v →
      formatEventDetails pf v = .error e →
        invoke_get_event_details pf net id
          = { outcome := .handled { content := [formatError e], isError := true }
              requests := [eventEndpoint ((jvalNum id).getD 0)] })
    ∧ (∀ pf net v e, makeRequest (net currentUserEndpoint) = .ok v →
      formatUserDetails pf v = .error e →
        invoke_get_current_user pf net
          = { outcome := .handled { content := [formatError e], isError := true }
              requests := [currentUserEndpoint] })
    ∧ (∀ pf net since assets v e, (zodStrOk since && zodOptStrOk assets) = true →
      makeRequest (net (syncEndpoint ((jvalStr since).getD "") (jvalStr assets))) = .ok v →
      formatSyncResponse pf v = .error e →
        invoke_sync_user_data pf net since assets
          = { outcome := .handled { content := [formatError e], isError := true }
              requests := [syncEndpoint ((jvalStr since).getD "") (jvalStr assets)] })
    ∧ (∀ pf net since assets, (zodStrOk since && zodOptStrOk assets) = false →
        invoke_sync_user_data pf net since assets
          = { outcome := .invalidArgs, requests := [] }) := by
  refine ⟨?_, ?_, ?_, ?_, ?_, ?_, ?_, ?_, ?_, ?_, ?_, ?_, ?_, ?_, ?_, ?_, ?_⟩
  · intro α e render; rfl
  · intro α v render e h; simp [handleWith, h]
  · intro α fetched render
    cases fetched with
    | error e => rfl
    | ok v => cases hr : render v <;> simp [handleWith, hr]
  · intro pf net page e hz hm; simp [invoke_get_routes, hz, hm, handleWith]
  · intro pf net id e hz hm; simp [invoke_get_route_details, hz, hm, handleWith]
  · intro pf net page e hz hm; simp [invoke_get_trips, hz, hm, handleWith]
  · intro pf net id e hz hm; simp [invoke_get_trip_details, hz, hm, handleWith]
  · intro pf net e hm; simp [invoke_get_current_user, hm, handleWith]
  · intro pf net page e hz hm; simp [invoke_get_events, hz, hm, handleWith]
  · intro pf net id e hz hm; simp [invoke_get_event_details, hz, hm, handleWith]
  · intro pf net since assets e hz hm; simp [invoke_sync_user_data, hz, hm, handleWith]
  · intro pf net id v e hz hm hf
    simp [invoke_get_route_details, hz, hm, hf, handleWith]
  · intro pf net id v e hz hm hf
    simp [invoke_get_trip_details, hz, hm, hf, handleWith]
  · intro pf net id v e hz hm hf
    simp [invoke_get_event_details, hz, hm, hf, handleWith]
  · intro pf net v e hm hf
    simp [invoke_get_current_user, hm, hf, handleWith]
  · intro pf net since assets v e hz hm hf
    simp [invoke_sync_user_data, hz, hm, hf, handleWith]
  · intro pf net since assets hz; simp [invoke_sync_user_data, hz]

/-- C1 witness: a transport failure on `get_routes` (valid empty page
argument) is contained as a single-text error result. -/
theorem c1_error_containment_witness :
    invoke_get_routes pfStub (fun _ => FetchOutcome.reject "offline") none
      = { outcome :=
            .handled { content := [formatError (.error "TypeError" "offline")], isError := true }
          requests := [routesEndpoint (jvalNum none)] } :=
  c1_error_containment.2.2.2.1 pfStub (fun _ => FetchOutcome.reject "offline") none
    (.error "TypeError" "offline") rfl rfl
